import Mathlib

/-!
Verification development for the whisper-server audio ingestion pipeline
(`utils/audio_processor.py`, `utils/model_manager.py`, `server.py`, `config.py`).

Waveforms are modelled as lists of channels, each channel a list of rational
amplitudes (`torch.Tensor` of shape (channels, frames)).  External library
calls (torchaudio, librosa, soundfile, pydub decoding, the resampling
transform, subprocess execution) are oracles supplied through environment
structures; the repository's own control flow, arithmetic and filesystem
effects are translated directly from the Python source.  The filesystem is a
list of paths.  `torch.mean` is modelled on lists; `torch.max` raises a
RuntimeError on a zero-element tensor, modelled by the fallible
`torchMaxAbs`; `torch.squeeze` of a (c, n) tensor with c ≤ 1 — the only
shape reaching it in `preprocess_audio` — is list join.
-/

abbrev FS := List String

abbrev Wave := List (List ℚ)

abbrev Audio := Wave × ℕ

/-- Python exception values, carrying their message. -/
inductive PyErr
  | valueError (msg : String)
  | runtimeError (msg : String)
  | exception (msg : String)
  deriving DecidableEq

/-- The message of a Python exception, as `str(e)` produces it. -/
def PyErr.text : PyErr → String
  | PyErr.valueError m => m
  | PyErr.runtimeError m => m
  | PyErr.exception m => m

/-- `config.py`: fixed target sample rate. -/
def Config.TARGET_SAMPLE_RATE : ℕ := 16000

/-- `config.py`: maximum upload size in bytes. -/
def Config.MAX_CONTENT_LENGTH : ℕ := 50 * 1024 * 1024

/-- `config.py`: advisory maximum audio length in seconds. -/
def Config.MAX_AUDIO_LENGTH : ℕ := 30

/-- Model of `torch.abs` on one amplitude. -/
def absQ (x : ℚ) : ℚ := if x < 0 then -x else x

/-- Maximum absolute amplitude of a flat sample list (`torch.max(torch.abs(t))`),
0 for an empty list. -/
def maxAbsL (l : List ℚ) : ℚ := (l.map absQ).foldr max 0

/-- Maximum absolute amplitude over a whole waveform. -/
def maxAbs (w : Wave) : ℚ := maxAbsL w.flatten

/-- Model of `torch.mean(waveform, dim=0, keepdim=True)` applied to a
(channels, frames) tensor: the sample-wise mean of all channels.  All
channels of a tensor have equal length, so the `getD` default is never
consulted on tensor-shaped input. -/
def channelMean (w : Wave) : List ℚ :=
  (List.range ((w.head?.getD []).length)).map
    (fun i => ((w.map (fun ch => ch.getD i 0)).sum) / (w.length : ℚ))

/-- The resampling oracle: `torchaudio.transforms.Resample(orig, new)` applied
to one channel. -/
structure ResampleEnv where
  resample : ℕ → ℕ → List ℚ → List ℚ

/-- The message of the RuntimeError PyTorch raises when `torch.max` is
applied to a tensor with zero elements. -/
def emptyMaxMsg : String :=
  "max(): Expected reduction dim to be specified for input.numel() == 0."

/-- `torch.max(torch.abs(t))` over the flat sample list, as PyTorch computes
it: an empty reduction raises a RuntimeError, otherwise the maximum absolute
amplitude is returned. -/
def torchMaxAbs (l : List ℚ) : Except PyErr ℚ :=
  if l.length = 0 then Except.error (PyErr.runtimeError emptyMaxMsg)
  else Except.ok (maxAbsL l)

/-- `AudioProcessor.preprocess_audio`, translated statement by statement.
The peak computation `torch.max(torch.abs(waveform))` is the fallible
library call `torchMaxAbs`: it raises on a zero-element waveform, which
makes the source's final empty-result `ValueError` raise unreachable.
Returns the flat processed sample list together with the flag telling whether
the silent-audio warning was logged. -/
def preprocess_audio (env : ResampleEnv) (target_sample_rate : ℕ)
    (waveform : Wave) (sample_rate : ℕ) : Except PyErr (List ℚ × Bool) :=
  let w1 := if waveform.length > 1 then [channelMean waveform] else waveform
  let w2 := if sample_rate ≠ target_sample_rate
    then w1.map (env.resample sample_rate target_sample_rate) else w1
  match torchMaxAbs w2.flatten with
  | Except.error e => Except.error e
  | Except.ok max_val =>
    let w3 := if 0 < max_val
      then w2.map (List.map (fun x => x / max_val)) else w2
    let silentWarn := ¬ (0 < max_val)
    let result := w3.flatten
    if result.length = 0 then Except.error (PyErr.valueError "Processed audio is empty")
    else Except.ok (result, decide silentWarn)

/-- Spec step 1 (channel mixdown): if more than one channel, average all
channels sample-wise into one. -/
def spec_mixdown (w : Wave) : Wave :=
  if w.length > 1 then [channelMean w] else w

/-- Spec step 2 (resample): if the sample rate differs from the fixed target
16000 Hz, resample each channel to 16000 Hz, otherwise skip. -/
def spec_resample (env : ResampleEnv) (sr : ℕ) (w : Wave) : Wave :=
  if sr ≠ 16000 then w.map (env.resample sr 16000) else w

/-- Spec step 3 (peak normalization): if the peak is positive divide every
sample by it, otherwise leave samples unchanged and signal the silent
warning. -/
def spec_peakNormalize (w : Wave) : Wave × Bool :=
  if 0 < maxAbs w then (w.map (List.map (fun x => x / maxAbs w)), false)
  else (w, true)

/-- Spec step 4 (collapse to a flat one-dimensional sequence). -/
def spec_flatten (w : Wave) : List ℚ := w.flatten

/-- The normalizer as the spec describes it: the four steps in order,
followed by the empty-result rejection. -/
def normalizeSpec (env : ResampleEnv) (w : Wave) (sr : ℕ) :
    Except PyErr (List ℚ × Bool) :=
  let w2 := spec_resample env sr (spec_mixdown w)
  let pn := spec_peakNormalize w2
  let flat := spec_flatten pn.1
  if flat.length = 0 then Except.error (PyErr.valueError "Processed audio is empty")
  else Except.ok (flat, pn.2)

/-- A trivial resampling oracle used for concrete evaluations. -/
def envId : ResampleEnv := ⟨fun _ _ l => l⟩

/-- The last index at which character `c` occurs in `p` (`str.rfind(c)`). -/
def lastIdxOf (c : Char) (p : List Char) : Option Nat :=
  (List.range p.length).foldl (fun acc i => if p.getD i ' ' = c then some i else acc) none

/-- `os.path.splitext(p)[1]` on POSIX, as `genericpath._splitext` computes it:
the suffix from the last dot, provided that dot lies after the last path
separator and some non-dot character of the basename precedes it. -/
def splitextExt (p : List Char) : List Char :=
  let si : Int := match lastIdxOf '/' p with | some n => (n : Int) | none => -1
  let di : Int := match lastIdxOf '.' p with | some n => (n : Int) | none => -1
  if si < di then
    if (List.range p.length).any
        (fun i => decide (si < (i : Int) ∧ (i : Int) < di ∧ ¬ p.getD i '.' = '.')) then
      p.drop di.toNat
    else []
  else []

/-- The extension computed at the top of `load_audio`:
`os.path.splitext(file_path.lower())[1]`. -/
def extOf (path : String) : String :=
  String.mk (splitextExt (path.toList.map Char.toLower))

/-- A pydub `AudioSegment`: channel count, frame rate, bytes per sample, and
the raw integer samples of `get_array_of_samples()`. -/
structure Segment where
  channels : Nat
  frame_rate : Nat
  sample_width : Nat
  samples : List Int
  deriving DecidableEq

/-- The body of `_load_with_pydub` after `AudioSegment.from_file` succeeded:
mix down to one channel when the segment is multi-channel (`set_channels(1)`,
supplied as the oracle `setCh`), read the raw integer samples as float32,
scale by the divisor matching the sample width (8-, 16- or 32-bit), and wrap
as a single-channel tensor (`unsqueeze(0)`). -/
def pydubSegmentAudio (setCh : Segment → Segment) (seg : Segment) : Audio :=
  let audio := if seg.channels > 1 then setCh seg else seg
  let sample_rate := audio.frame_rate
  let arr : List ℚ := audio.samples.map (fun i => (i : ℚ))
  let arr2 := if audio.sample_width = 1 then arr.map (fun x => x / 128)
    else if audio.sample_width = 2 then arr.map (fun x => x / 32768)
    else if audio.sample_width = 4 then arr.map (fun x => x / 2147483648)
    else arr
  ([arr2], sample_rate)

/-- Outcome of `subprocess.run(cmd, ..., timeout=t)` for the ffmpeg command:
raised `TimeoutExpired`, raised `FileNotFoundError`, or completed with a
return code and captured stderr. -/
inductive FfmpegOutcome
  | timeout
  | notFound
  | completed (returncode : Int) (stderr : String)
  deriving DecidableEq

/-- Oracles for every external-library call `load_audio` makes on one input
file, plus the temporary paths `tempfile.NamedTemporaryFile` hands out.
`ffmpegRun` is a function of the timeout passed to `subprocess.run`. -/
structure DecodeEnv where
  fromFileRes : Except String Segment
  setChannels1 : Segment → Segment
  torchLoadMain : Except String Audio
  librosaRes : Except String Audio
  soundfileRes : Except String Audio
  convFromFileRes : Except String Segment
  pydubExportOk : Bool
  pydubTmpPath : String
  torchLoadPydubWav : Except String Audio
  ffmpegTmpPath : String
  ffmpegRun : Nat → FfmpegOutcome
  torchLoadFfmpegWav : Except String Audio

/-- `_load_with_pydub`. -/
def load_with_pydub (env : DecodeEnv) : Except String Audio :=
  match env.fromFileRes with
  | Except.error e => Except.error e
  | Except.ok seg => Except.ok (pydubSegmentAudio env.setChannels1 seg)

/-- `os.unlink p`: remove the path from the filesystem. -/
def removePath (fs : FS) (p : String) : FS := fs.filter (fun q => decide (¬ q = p))

/-- `if os.path.exists(p): os.unlink(p)`. -/
def unlinkIfExists (fs : FS) (p : String) : FS :=
  if p ∈ fs then removePath fs p else fs

/-- `_convert_to_wav_with_pydub`: the temporary output file is created first
by `NamedTemporaryFile(delete=False)`; if the subsequent
`AudioSegment.from_file` or the export raises, the exception propagates with
the created file still on disk. -/
def convert_to_wav_with_pydub (env : DecodeEnv) (fs : FS) : Except String String × FS :=
  let fs1 := env.pydubTmpPath :: fs
  match env.convFromFileRes with
  | Except.error e => (Except.error e, fs1)
  | Except.ok _seg =>
    if env.pydubExportOk then (Except.ok env.pydubTmpPath, fs1)
    else (Except.error "pydub export failed", fs1)

/-- `_convert_with_ffmpeg`: the temporary output file is created first, then
`subprocess.run` is invoked with `timeout=30`; timeout, missing binary and
nonzero exit each raise, with the created file still on disk. -/
def convert_with_ffmpeg (env : DecodeEnv) (fs : FS) : Except String String × FS :=
  let fs1 := env.ffmpegTmpPath :: fs
  match env.ffmpegRun 30 with
  | FfmpegOutcome.timeout => (Except.error "ffmpeg conversion timed out", fs1)
  | FfmpegOutcome.notFound =>
      (Except.error "ffmpeg not found. Please install ffmpeg.", fs1)
  | FfmpegOutcome.completed rc stderr =>
      if rc ≠ 0 then (Except.error ("ffmpeg failed: " ++ stderr), fs1)
      else (Except.ok env.ffmpegTmpPath, fs1)

/-- The six decode strategies of `load_audio`, in source order. -/
inductive Strategy
  | pydubDirect | torchMain | librosaS | soundfileS | pydubConv | ffmpegConv
  deriving DecidableEq

/-- The final aggregate error message of `load_audio`. -/
def allMethodsMsg (path : String) : String :=
  "Failed to load audio file " ++ path ++ ". Tried all available methods."

/-- Methods 6 and the final raise of `load_audio`: ffmpeg conversion, decode
of the converted file with cleanup in `finally`, else the aggregate error. -/
def loadFfmpegStage (env : DecodeEnv) (path : String) (fs : FS) (t : List Strategy) :
    Except String Audio × FS × List Strategy :=
  match convert_with_ffmpeg env fs with
  | (Except.ok convPath, fs6) =>
    (match env.torchLoadFfmpegWav with
     | Except.ok a => (Except.ok a, unlinkIfExists fs6 convPath, t ++ [Strategy.ffmpegConv])
     | Except.error _ =>
        (Except.error (allMethodsMsg path), unlinkIfExists fs6 convPath,
          t ++ [Strategy.ffmpegConv]))
  | (Except.error _, fs6) =>
      (Except.error (allMethodsMsg path), fs6, t ++ [Strategy.ffmpegConv])

/-- `AudioProcessor.load_audio`, translated method by method.  Returns the
decode result, the final filesystem, and the list of strategies attempted in
order. -/
def load_audio (env : DecodeEnv) (path : String) (fs0 : FS) :
    Except String Audio × FS × List Strategy :=
  let usePydub := [".m4a", ".mp4", ".aac"].contains (extOf path)
  let t1 : List Strategy := if usePydub then [Strategy.pydubDirect] else []
  match (if usePydub then (load_with_pydub env).toOption else none) with
  | some a => (Except.ok a, fs0, t1)
  | none =>
  match env.torchLoadMain with
  | Except.ok a => (Except.ok a, fs0, t1 ++ [Strategy.torchMain])
  | Except.error _ =>
  match env.librosaRes with
  | Except.ok a => (Except.ok a, fs0, t1 ++ [Strategy.torchMain, Strategy.librosaS])
  | Except.error _ =>
  match env.soundfileRes with
  | Except.ok a =>
      (Except.ok a, fs0,
        t1 ++ [Strategy.torchMain, Strategy.librosaS, Strategy.soundfileS])
  | Except.error _ =>
  match convert_to_wav_with_pydub env fs0 with
  | (Except.ok wavPath, fs5) =>
    (match env.torchLoadPydubWav with
     | Except.ok a =>
        (Except.ok a, unlinkIfExists fs5 wavPath,
          t1 ++ [Strategy.torchMain, Strategy.librosaS, Strategy.soundfileS,
            Strategy.pydubConv])
     | Except.error _ =>
        loadFfmpegStage env path (unlinkIfExists fs5 wavPath)
          (t1 ++ [Strategy.torchMain, Strategy.librosaS, Strategy.soundfileS,
            Strategy.pydubConv]))
  | (Except.error _, fs5) =>
      loadFfmpegStage env path fs5
        (t1 ++ [Strategy.torchMain, Strategy.librosaS, Strategy.soundfileS,
          Strategy.pydubConv])

/-- Spec-level view of one strategy: the audio it would produce on success. -/
def strategyResult (env : DecodeEnv) : Strategy → Option Audio
  | Strategy.pydubDirect => (load_with_pydub env).toOption
  | Strategy.torchMain => env.torchLoadMain.toOption
  | Strategy.librosaS => env.librosaRes.toOption
  | Strategy.soundfileS => env.soundfileRes.toOption
  | Strategy.pydubConv =>
      (match env.convFromFileRes with
       | Except.error _ => none
       | Except.ok _ =>
          if env.pydubExportOk then env.torchLoadPydubWav.toOption else none)
  | Strategy.ffmpegConv =>
      (match env.ffmpegRun 30 with
       | FfmpegOutcome.completed rc _ =>
          if rc ≠ 0 then none else env.torchLoadFfmpegWav.toOption
       | FfmpegOutcome.timeout => none
       | FfmpegOutcome.notFound => none)

/-- Spec-level priority order: the pydub strategy first exactly when the
lowercased file extension is .m4a, .mp4 or .aac, then the five generic
strategies. -/
def strategyOrder (path : String) : List Strategy :=
  (if [".m4a", ".mp4", ".aac"].contains (extOf path) then [Strategy.pydubDirect]
   else []) ++
    [Strategy.torchMain, Strategy.librosaS, Strategy.soundfileS,
     Strategy.pydubConv, Strategy.ffmpegConv]

/-- First success along a strategy list. -/
def firstSuccess (env : DecodeEnv) : List Strategy → Option Audio
  | [] => none
  | s :: rest =>
    match strategyResult env s with
    | some a => some a
    | none => firstSuccess env rest

/-- The strategies a short-circuiting left-to-right scan attempts: every
strategy up to and including the first successful one. -/
def attemptedList (env : DecodeEnv) : List Strategy → List Strategy
  | [] => []
  | s :: rest =>
    match strategyResult env s with
    | some _ => [s]
    | none => s :: attemptedList env rest

/-- `ModelManager` state: configuration plus the mutable fields set by
`load_model`.  Processor and model handles are opaque numeric ids. -/
structure MMState where
  model_name : String
  device : String
  processor : Option Nat
  model : Option Nat
  is_loaded : Bool
  deriving DecidableEq

/-- Oracles for the two `from_pretrained` calls of `load_model`. -/
structure LoadEnv where
  processorRes : Except PyErr Nat
  modelRes : Except PyErr Nat

/-- `ModelManager.load_model`.  Returns the state after the call, the
outcome, and whether a real load was performed (`False` on the early-return
path). -/
def load_model (env : LoadEnv) (s : MMState) : MMState × Except PyErr Unit × Bool :=
  if s.is_loaded then (s, Except.ok (), false)
  else
    match env.processorRes with
    | Except.error e => (s, Except.error e, true)
    | Except.ok p =>
      match env.modelRes with
      | Except.error e => ({ s with processor := some p }, Except.error e, true)
      | Except.ok m =>
          ({ s with processor := some p, model := some m, is_loaded := true },
            Except.ok (), true)

/-- Oracle for the inference pipeline inside `ModelManager.transcribe`
(processor call, generate, batch decode, strip). -/
structure InferEnv where
  inferRes : Except PyErr String

/-- The not-ready error message of `ModelManager.transcribe`. -/
def notLoadedMsg : String := "Model not loaded. Call load_model() first."

/-- `ModelManager.transcribe`: fail fast when the model is not loaded,
otherwise run the inference pipeline.  No load is attempted on this path. -/
def transcribe (env : InferEnv) (s : MMState) : Except PyErr String :=
  if s.is_loaded = false then Except.error (PyErr.valueError notLoadedMsg)
  else env.inferRes

/-- HTTP-level responses of the `/transcribe` handler. -/
inductive Resp
  | badRequest (msg : String)
  | okText (t : String)
  | serverError (details : String)
  deriving DecidableEq

/-- Oracles and request data for one call of the `/transcribe` handler.
Staging is modelled as atomic: when `save_temp_audio` fails it raises
without assigning `temp_file_path`. -/
structure ReqEnv where
  is_initialized : Bool
  initOk : Bool
  initErrMsg : String
  hasFile : Bool
  filenameEmpty : Bool
  stagedPath : String
  stageOk : Bool
  stageErrMsg : String
  loadRes : Except String Audio
  renv : ResampleEnv
  transRes : Except PyErr String
  unlinkOk : Bool

/-- `AudioProcessor.cleanup_temp_file`: existence check, unlink inside
try/except — a failing unlink (`unlinkOk = false`) is swallowed and leaves
the file in place; the function itself never raises. -/
def cleanup_temp_file (unlinkOk : Bool) (fs : FS) (p : String) : FS :=
  if p ∈ fs then (if unlinkOk then removePath fs p else fs) else fs

/-- The `/transcribe` handler `transcribe_audio` of `server.py`: the try
block with its early 400 returns, staging, decode, normalization and
transcription, the uniform except-to-500 handler, and the finally block that
attempts cleanup whenever a temporary file was staged.  Returns the
response, the final filesystem, and whether cleanup was attempted. -/
def transcribe_audio (env : ReqEnv) (fs : FS) : Resp × FS × Bool :=
  if env.is_initialized = false ∧ env.initOk = false then
    (Resp.serverError env.initErrMsg, fs, false)
  else if env.hasFile = false then
    (Resp.badRequest "No audio file provided", fs, false)
  else if env.filenameEmpty then
    (Resp.badRequest "No file selected", fs, false)
  else if env.stageOk = false then
    (Resp.serverError env.stageErrMsg, fs, false)
  else
    let fs1 := env.stagedPath :: fs
    let inner : Except String String :=
      match env.loadRes with
      | Except.error e => Except.error e
      | Except.ok (w, sr) =>
        match preprocess_audio env.renv Config.TARGET_SAMPLE_RATE w sr with
        | Except.error e => Except.error e.text
        | Except.ok _pa =>
          match env.transRes with
          | Except.error e => Except.error e.text
          | Except.ok t => Except.ok t
    let resp := match inner with
      | Except.ok t => Resp.okText t
      | Except.error e => Resp.serverError e
    (resp, cleanup_temp_file env.unlinkOk fs1 env.stagedPath, true)

/-- Base concrete decode environment in which every strategy fails; the
ffmpeg subprocess times out. -/
def envAllFail : DecodeEnv :=
  { fromFileRes := Except.error "e"
    setChannels1 := fun s => s
    torchLoadMain := Except.error "e"
    librosaRes := Except.error "e"
    soundfileRes := Except.error "e"
    convFromFileRes := Except.error "e"
    pydubExportOk := false
    pydubTmpPath := "/tmp/p.wav"
    torchLoadPydubWav := Except.error "e"
    ffmpegTmpPath := "/tmp/f.wav"
    ffmpegRun := fun _ => FfmpegOutcome.timeout
    torchLoadFfmpegWav := Except.error "e" }

/-- Variant: ffmpeg binary missing. -/
def envNotFound : DecodeEnv := { envAllFail with ffmpegRun := fun _ => FfmpegOutcome.notFound }

/-- Variant: ffmpeg exits nonzero with stderr output. -/
def envExitOne : DecodeEnv :=
  { envAllFail with ffmpegRun := fun _ => FfmpegOutcome.completed 1 "boom" }

/-- Variant: ffmpeg succeeds. -/
def envExitZero : DecodeEnv :=
  { envAllFail with ffmpegRun := fun _ => FfmpegOutcome.completed 0 "" }

/-- Variant: both conversions succeed, converted files fail to decode. -/
def envConvOk : DecodeEnv :=
  { envAllFail with
    convFromFileRes := Except.ok (Segment.mk 1 8000 2 [])
    pydubExportOk := true
    ffmpegRun := fun _ => FfmpegOutcome.completed 0 "" }

/-- A `ModelManager` state that has completed a successful load. -/
def mmLoaded : MMState :=
  { model_name := "tarteel-ai/whisper-tiny-ar-quran", device := "cpu",
    processor := some 0, model := some 0, is_loaded := true }

/-- A freshly constructed `ModelManager` state. -/
def mmFresh : MMState :=
  { model_name := "tarteel-ai/whisper-tiny-ar-quran", device := "cpu",
    processor := none, model := none, is_loaded := false }

/-- A load environment in which both `from_pretrained` calls succeed. -/
def loadEnvOk : LoadEnv := { processorRes := Except.ok 0, modelRes := Except.ok 0 }

/-- An inference environment in which the pipeline succeeds. -/
def inferEnvOk : InferEnv := { inferRes := Except.ok "text" }

/-- A request environment in which every stage succeeds. -/
def reqEnvOk : ReqEnv :=
  { is_initialized := true
    initOk := true
    initErrMsg := "init failed"
    hasFile := true
    filenameEmpty := false
    stagedPath := "/tmp/u.wav"
    stageOk := true
    stageErrMsg := "stage failed"
    loadRes := Except.ok ([[1]], 16000)
    renv := envId
    transRes := Except.ok "text"
    unlinkOk := true }

/- ===== theorems from here on ===== -/

theorem absQ_eq_abs (x : ℚ) : absQ x = |x| := by
  by_cases h : x < 0
  · simp [absQ, h, abs_of_neg h]
  · simp [absQ, h, abs_of_nonneg (le_of_not_lt h)]

theorem maxAbsL_nonneg (l : List ℚ) : 0 ≤ maxAbsL l := by
  induction l with
  | nil => simp [maxAbsL]
  | cons x t ih => simpa [maxAbsL] using Or.inr ih

theorem maxAbsL_cons (x : ℚ) (t : List ℚ) :
    maxAbsL (x :: t) = max (absQ x) (maxAbsL t) := rfl

theorem maxAbsL_eq_zero_of_all_zero (l : List ℚ) (h : ∀ x ∈ l, x = 0) :
    maxAbsL l = 0 := by
  induction l with
  | nil => rfl
  | cons x t ih =>
    have hx : x = 0 := h x (List.mem_cons_self x t)
    have ht := ih (fun y hy => h y (List.mem_cons_of_mem x hy))
    simp [maxAbsL_cons, hx, ht, absQ]

theorem join_map_length (w : Wave) (f : ℚ → ℚ) :
    (w.map (List.map f)).flatten.length = w.flatten.length := by
  induction w with
  | nil => rfl
  | cons ch t ih => simp [List.flatten, ih]

theorem maxAbsL_map_div (l : List ℚ) (m : ℚ) (hm : 0 < m) :
    maxAbsL (l.map (fun x => x / m)) = maxAbsL l / m := by
  induction l with
  | nil => simp [maxAbsL]
  | cons x t ih =>
    have hx : absQ (x / m) = absQ x / m := by
      rw [absQ_eq_abs, absQ_eq_abs, abs_div, abs_of_pos hm]
    simp only [List.map_cons, maxAbsL_cons, hx, ih, max_div_div_right (le_of_lt hm)]

theorem flatten_all_zero (w : Wave) (h : ∀ ch ∈ w, ∀ x ∈ ch, x = 0) :
    ∀ x ∈ w.flatten, x = 0 := by
  intro x hx
  rcases List.mem_flatten.mp hx with ⟨ch, hch, hxch⟩
  exact h ch hch x hxch

theorem torchMaxAbs_ok (l : List ℚ) (h : l ≠ []) :
    torchMaxAbs l = Except.ok (maxAbsL l) := by
  have h0 : ¬ l.length = 0 := fun hh => h (List.length_eq_zero.mp hh)
  simp [torchMaxAbs, h0]

theorem torchMaxAbs_err (l : List ℚ) (h : l = []) :
    torchMaxAbs l = Except.error (PyErr.runtimeError emptyMaxMsg) := by
  subst h
  rfl

theorem preprocess_eq_normalizeSpec (env : ResampleEnv) (w : Wave) (sr : ℕ)
    (hne : (spec_resample env sr (spec_mixdown w)).flatten ≠ []) :
    preprocess_audio env Config.TARGET_SAMPLE_RATE w sr = normalizeSpec env w sr := by
  have hok := torchMaxAbs_ok ((spec_resample env sr (spec_mixdown w)).flatten) hne
  unfold preprocess_audio normalizeSpec spec_flatten spec_peakNormalize maxAbs
    spec_resample spec_mixdown Config.TARGET_SAMPLE_RATE
  unfold spec_resample spec_mixdown at hok
  simp only [hok]
  split_ifs <;> simp_all

theorem preprocess_empty_raises (env : ResampleEnv) (w : Wave) (sr : ℕ)
    (he : (spec_resample env sr (spec_mixdown w)).flatten = []) :
    preprocess_audio env Config.TARGET_SAMPLE_RATE w sr =
      Except.error (PyErr.runtimeError emptyMaxMsg) := by
  have herr := torchMaxAbs_err ((spec_resample env sr (spec_mixdown w)).flatten) he
  unfold preprocess_audio Config.TARGET_SAMPLE_RATE
  unfold spec_resample spec_mixdown at herr
  simp only [herr]

theorem peakNormalize_flatten_length (w2 : Wave) :
    (spec_peakNormalize w2).1.flatten.length = w2.flatten.length := by
  unfold spec_peakNormalize
  by_cases h : 0 < maxAbs w2
  · simp only [h, if_true]
    exact join_map_length w2 _
  · simp [h]

/-- C2 is false as stated: on a zero-length waveform the peak computation
(`torch.max` of an empty tensor) raises a RuntimeError before the source's
final empty-result check is reached, so the failure is not the empty-audio
`ValueError` even though the resulting sequence has zero length. -/
theorem c2_counterexample_empty_input_runtime_error :
    preprocess_audio envId Config.TARGET_SAMPLE_RATE [] 16000 =
      Except.error (PyErr.runtimeError emptyMaxMsg) ∧
    (spec_resample envId 16000 (spec_mixdown [])).flatten = [] ∧
    PyErr.runtimeError emptyMaxMsg ≠ PyErr.valueError "Processed audio is empty" := by
  refine ⟨rfl, rfl, ?_⟩
  intro h
  exact PyErr.noConfusion h

/-- C2 amended: `preprocess_audio` performs the steps in order — mixdown
when more than one channel, resampling to the fixed 16000 Hz target exactly
when the rate differs, peak normalization, collapse to a flat sequence —
and equals the spec pipeline whenever the post-mixdown/resample waveform is
nonempty; it fails if and only if the resulting flat sequence has zero
length, but with the RuntimeError `torch.max` raises on an empty reduction,
never with the `ValueError` of the source's own empty-result check, which
is unreachable. -/
theorem c2_amended_steps_and_runtime_error_on_empty (env : ResampleEnv) (w : Wave)
    (sr : ℕ) :
    ((spec_resample env sr (spec_mixdown w)).flatten ≠ [] →
      preprocess_audio env Config.TARGET_SAMPLE_RATE w sr = normalizeSpec env w sr) ∧
    ((∃ e, preprocess_audio env Config.TARGET_SAMPLE_RATE w sr = Except.error e) ↔
      (spec_resample env sr (spec_mixdown w)).flatten = []) ∧
    (∀ e, preprocess_audio env Config.TARGET_SAMPLE_RATE w sr = Except.error e →
      e = PyErr.runtimeError emptyMaxMsg ∧
        e ≠ PyErr.valueError "Processed audio is empty") := by
  by_cases hemp : (spec_resample env sr (spec_mixdown w)).flatten = []
  · have hpre := preprocess_empty_raises env w sr hemp
    refine ⟨fun hne => absurd hemp hne, ?_, ?_⟩
    · constructor
      · intro _
        exact hemp
      · intro _
        exact ⟨PyErr.runtimeError emptyMaxMsg, hpre⟩
    · intro e he
      rw [hpre] at he
      injection he with h
      constructor
      · exact h.symm
      · rw [← h]
        intro hc
        exact PyErr.noConfusion hc
  · have heq := preprocess_eq_normalizeSpec env w sr hemp
    have hnoerr : ∀ e, normalizeSpec env w sr ≠ Except.error e := by
      intro e
      have hlen := peakNormalize_flatten_length (spec_resample env sr (spec_mixdown w))
      have hL : ¬ ((spec_peakNormalize
          (spec_resample env sr (spec_mixdown w))).1.flatten.length = 0) := by
        rw [hlen]
        intro h0
        exact hemp (List.length_eq_zero.mp h0)
      simp only [normalizeSpec, spec_flatten]
      rw [if_neg hL]
      intro hc
      exact Except.noConfusion hc
    refine ⟨fun _ => heq, ?_, ?_⟩
    · constructor
      · rintro ⟨e, he⟩
        rw [heq] at he
        exact absurd he (hnoerr e)
      · intro h
        exact absurd h hemp
    · intro e he
      rw [heq] at he
      exact absurd he (hnoerr e)

/-- C2 amended witness: a two-channel 8000 Hz waveform equals the spec
pipeline; the empty waveform errors exactly because its flat result is
empty, and that error is the RuntimeError of the empty max reduction, not
the empty-audio ValueError. -/
theorem c2_amended_steps_witness :
    preprocess_audio envId Config.TARGET_SAMPLE_RATE [[1, 3], [3, 1]] 8000 =
      normalizeSpec envId [[1, 3], [3, 1]] 8000 ∧
    ((∃ e, preprocess_audio envId Config.TARGET_SAMPLE_RATE [] 16000 =
        Except.error e) ↔
      (spec_resample envId 16000 (spec_mixdown [])).flatten = []) ∧
    (PyErr.runtimeError emptyMaxMsg = PyErr.runtimeError emptyMaxMsg ∧
      PyErr.runtimeError emptyMaxMsg ≠ PyErr.valueError "Processed audio is empty") :=
  ⟨(c2_amended_steps_and_runtime_error_on_empty envId [[1, 3], [3, 1]] 8000).1
     (by norm_num [spec_resample, spec_mixdown, channelMean, envId]),
   (c2_amended_steps_and_runtime_error_on_empty envId [] 16000).2.1,
   (c2_amended_steps_and_runtime_error_on_empty envId [] 16000).2.2
     (PyErr.runtimeError emptyMaxMsg) rfl⟩

/-- C5 is false as stated: the waveform [[1/2]] is mono, at 16000 Hz, with
peak absolute amplitude 1/2 ≤ 1.0, yet `preprocess_audio` rescales it to
[1] instead of returning it unchanged. -/
theorem c5_counterexample_peak_below_one :
    preprocess_audio envId Config.TARGET_SAMPLE_RATE [[(1 : ℚ)/2]] 16000 =
      Except.ok ([(1 : ℚ)], false) ∧ (1 : ℚ)/2 ≠ 1 := by
  constructor
  · have hmx : maxAbs [[(1 : ℚ)/2]] = 1/2 := by
      norm_num [maxAbs, maxAbsL, absQ, max_def]
    rw [preprocess_eq_normalizeSpec envId [[(1 : ℚ)/2]] 16000
      (by norm_num [spec_resample, spec_mixdown])]
    norm_num [normalizeSpec, spec_flatten, spec_resample, spec_mixdown, spec_peakNormalize,
      hmx, List.flatten]
  · norm_num

/-- C5 amended: a mono waveform at 16000 Hz whose peak absolute amplitude is
exactly 1.0 is returned unchanged by `preprocess_audio` (waveforms with
0 < peak < 1.0 are rescaled by the reciprocal of the peak instead). -/
theorem c5_amended_unit_peak_unchanged (env : ResampleEnv) (xs : List ℚ)
    (h : maxAbsL xs = 1) :
    preprocess_audio env Config.TARGET_SAMPLE_RATE [xs] 16000 =
      Except.ok (xs, false) := by
  have hmx : maxAbs [xs] = 1 := by simpa [maxAbs] using h
  have hne : xs ≠ [] := by
    intro hnil
    rw [hnil] at h
    simp [maxAbsL] at h
  have hflat : (spec_resample env 16000 (spec_mixdown [xs])).flatten = xs := by
    simp [spec_resample, spec_mixdown]
  rw [preprocess_eq_normalizeSpec env [xs] 16000 (by rw [hflat]; exact hne)]
  simp [normalizeSpec, spec_flatten, spec_resample, spec_mixdown, spec_peakNormalize,
    hmx, hne, List.length_eq_zero]

/-- C5 amended witness: the mono unit-peak waveform [[1]] is returned
unchanged. -/
theorem c5_amended_unit_peak_unchanged_witness :
    maxAbsL [(1 : ℚ)] = 1 ∧
      preprocess_audio envId Config.TARGET_SAMPLE_RATE [[(1 : ℚ)]] 16000 =
        Except.ok ([(1 : ℚ)], false) :=
  ⟨by norm_num [maxAbsL, absQ, max_def],
   c5_amended_unit_peak_unchanged envId [(1 : ℚ)] (by norm_num [maxAbsL, absQ, max_def])⟩

/-- C6: (silence) for every nonempty all-zero input waveform — assuming the
resampling transform maps silence to silence, which is vacuous when the rate
is already 16000 Hz — `preprocess_audio` skips the peak division, returns the
post-mixdown samples unchanged, signals the silent-audio warning and raises
no error; (positive peak) whenever the post-mixdown peak is positive, every
sample is divided by the peak and the loudest sample maps to absolute
amplitude exactly 1. -/
theorem c6_silent_warning_and_peak_division (env : ResampleEnv) (w : Wave) (sr : ℕ) :
    ((∀ ch ∈ w, ∀ x ∈ ch, x = 0) →
      (∀ ch ∈ spec_resample env sr (spec_mixdown w), ∀ x ∈ ch, x = 0) →
      (spec_resample env sr (spec_mixdown w)).flatten ≠ [] →
      preprocess_audio env Config.TARGET_SAMPLE_RATE w sr =
        Except.ok ((spec_resample env sr (spec_mixdown w)).flatten, true)) ∧
    (0 < maxAbs (spec_resample env sr (spec_mixdown w)) →
      preprocess_audio env Config.TARGET_SAMPLE_RATE w sr =
        Except.ok ((spec_resample env sr (spec_mixdown w)).flatten.map
            (fun x => x / maxAbs (spec_resample env sr (spec_mixdown w))), false) ∧
      maxAbsL ((spec_resample env sr (spec_mixdown w)).flatten.map
          (fun x => x / maxAbs (spec_resample env sr (spec_mixdown w)))) = 1) := by
  constructor
  · intro _h0 hz hne
    have hmz : maxAbs (spec_resample env sr (spec_mixdown w)) = 0 :=
      maxAbsL_eq_zero_of_all_zero _ (flatten_all_zero _ hz)
    rw [preprocess_eq_normalizeSpec env w sr hne]
    simp [normalizeSpec, spec_flatten, spec_peakNormalize, hmz, List.length_eq_zero, hne]
    rw [← List.length_flatten]
    exact fun h => hne (List.length_eq_zero.mp h)
  · intro hpos
    have hm0 : maxAbs (spec_resample env sr (spec_mixdown w)) ≠ 0 := ne_of_gt hpos
    have hflat_ne : (spec_resample env sr (spec_mixdown w)).flatten ≠ [] := by
      intro hnil
      rw [maxAbs, hnil] at hpos
      simp [maxAbsL] at hpos
    constructor
    · rw [preprocess_eq_normalizeSpec env w sr hflat_ne]
      simp only [normalizeSpec, spec_flatten, spec_peakNormalize, if_pos hpos]
      rw [(List.map_flatten _ _).symm]
      have hlen : ((spec_resample env sr (spec_mixdown w)).flatten.map
          (fun x => x / maxAbs (spec_resample env sr (spec_mixdown w)))).length ≠ 0 := by
        rw [List.length_map]
        intro h
        exact hflat_ne (List.length_eq_zero.mp h)
      rw [if_neg hlen]
    · have hdiv := maxAbsL_map_div
        ((spec_resample env sr (spec_mixdown w)).flatten)
        (maxAbs (spec_resample env sr (spec_mixdown w))) hpos
      rw [hdiv]
      exact div_self hm0

/-- C6 witness: the silent case on the nonempty all-zero waveform [[0, 0]],
and the positive-peak case on [[1, -2]] where the peak 2 rescales the
loudest sample to absolute amplitude 1. -/
theorem c6_silent_warning_and_peak_division_witness :
    (preprocess_audio envId Config.TARGET_SAMPLE_RATE [[0, 0]] 16000 =
        Except.ok ([0, 0], true)) ∧
    (preprocess_audio envId Config.TARGET_SAMPLE_RATE [[1, -2]] 16000 =
        Except.ok ([(1 : ℚ)/2, -1], false) ∧
      maxAbsL [(1 : ℚ)/2, -1] = 1) := by
  constructor
  · exact (c6_silent_warning_and_peak_division envId [[0, 0]] 16000).1
      (by decide) (by decide) (by decide)
  · have h2 := (c6_silent_warning_and_peak_division envId [[1, -2]] 16000).2
      (by norm_num [spec_resample, spec_mixdown, maxAbs, maxAbsL, absQ, max_def])
    have hmx : maxAbs (spec_resample envId 16000 (spec_mixdown [[1, -2]])) = 2 := by
      norm_num [spec_resample, spec_mixdown, maxAbs, maxAbsL, absQ, max_def]
    rw [hmx] at h2
    simpa [spec_resample, spec_mixdown] using h2

/-- C7: for every segment decoded by the pydub strategy whose (post-mixdown)
sample width is one of the widths pydub produces (1, 2 or 4 bytes), every
returned amplitude is the raw integer sample divided by 2^(bits − 1):
by 128 for 8-bit, 32768 for 16-bit and 2147483648 for 32-bit samples. -/
theorem c7_pydub_bit_depth_scaling (setCh : Segment → Segment) (seg a : Segment)
    (ha : a = (if seg.channels > 1 then setCh seg else seg))
    (hw : a.sample_width = 1 ∨ a.sample_width = 2 ∨ a.sample_width = 4) :
    (pydubSegmentAudio setCh seg).1 =
      [a.samples.map (fun i => (i : ℚ) / 2 ^ (8 * a.sample_width - 1))] := by
  rcases hw with h | h | h <;>
    simp [pydubSegmentAudio, ← ha, h, List.map_map, Function.comp] <;>
    norm_num

/-- C7 witness: a 16-bit mono segment has both its samples divided by
2^15 = 32768. -/
theorem c7_pydub_bit_depth_scaling_witness :
    (pydubSegmentAudio (fun s => s) (Segment.mk 1 44100 2 [16384, -32768])).1 =
      [(Segment.mk 1 44100 2 [16384, -32768]).samples.map
          (fun i => (i : ℚ) / 2 ^ (8 * (Segment.mk 1 44100 2 [16384, -32768]).sample_width - 1))] :=
  c7_pydub_bit_depth_scaling (fun s => s) (Segment.mk 1 44100 2 [16384, -32768])
    (Segment.mk 1 44100 2 [16384, -32768]) (by simp) (by simp)

/-- C10: audio produced by the pydub decode strategy always has exactly one
channel (the decoder mixes any multi-channel source down before wrapping the
samples with `unsqueeze(0)`), so the normalizer's channel-mixdown step is a
no-op on it. -/
theorem c10_pydub_output_mono (setCh : Segment → Segment) (seg : Segment) :
    (pydubSegmentAudio setCh seg).1.length = 1 ∧
    spec_mixdown (pydubSegmentAudio setCh seg).1 = (pydubSegmentAudio setCh seg).1 := by
  constructor
  · rfl
  · rfl

/-- C8: the ffmpeg strategy calls `subprocess.run` with an explicit 30-second
timeout; a timeout yields the timeout-specific error, a missing binary the
distinct tool-missing error, a nonzero exit an error carrying the captured
stderr, and a zero exit the converted path — the created temporary file
staying on disk in each case. -/
theorem c8_ffmpeg_subprocess_errors (env : DecodeEnv) (fs : FS) :
    (env.ffmpegRun 30 = FfmpegOutcome.timeout →
      convert_with_ffmpeg env fs =
        (Except.error "ffmpeg conversion timed out", env.ffmpegTmpPath :: fs)) ∧
    (env.ffmpegRun 30 = FfmpegOutcome.notFound →
      convert_with_ffmpeg env fs =
        (Except.error "ffmpeg not found. Please install ffmpeg.",
          env.ffmpegTmpPath :: fs)) ∧
    (∀ rc serr, env.ffmpegRun 30 = FfmpegOutcome.completed rc serr → rc ≠ 0 →
      convert_with_ffmpeg env fs =
        (Except.error ("ffmpeg failed: " ++ serr), env.ffmpegTmpPath :: fs)) ∧
    (∀ serr, env.ffmpegRun 30 = FfmpegOutcome.completed 0 serr →
      convert_with_ffmpeg env fs =
        (Except.ok env.ffmpegTmpPath, env.ffmpegTmpPath :: fs)) := by
  refine ⟨?_, ?_, ?_, ?_⟩
  · intro h
    simp [convert_with_ffmpeg, h]
  · intro h
    simp [convert_with_ffmpeg, h]
  · intro rc serr h hrc
    simp [convert_with_ffmpeg, h, hrc]
  · intro serr h
    simp [convert_with_ffmpeg, h]

/-- C8 witness: the four subprocess outcomes on concrete environments. -/
theorem c8_ffmpeg_subprocess_errors_witness :
    convert_with_ffmpeg envAllFail [] =
      (Except.error "ffmpeg conversion timed out", ["/tmp/f.wav"]) ∧
    convert_with_ffmpeg envNotFound [] =
      (Except.error "ffmpeg not found. Please install ffmpeg.", ["/tmp/f.wav"]) ∧
    convert_with_ffmpeg envExitOne [] =
      (Except.error ("ffmpeg failed: " ++ "boom"), ["/tmp/f.wav"]) ∧
    convert_with_ffmpeg envExitZero [] = (Except.ok "/tmp/f.wav", ["/tmp/f.wav"]) :=
  ⟨(c8_ffmpeg_subprocess_errors envAllFail []).1 rfl,
   (c8_ffmpeg_subprocess_errors envNotFound []).2.1 rfl,
   (c8_ffmpeg_subprocess_errors envExitOne []).2.2.1 1 "boom" rfl (by norm_num),
   (c8_ffmpeg_subprocess_errors envExitZero []).2.2.2 "" rfl⟩

theorem strategyResult_pd (env : DecodeEnv) :
    strategyResult env Strategy.pydubDirect = (load_with_pydub env).toOption := rfl

theorem strategyResult_tm (env : DecodeEnv) :
    strategyResult env Strategy.torchMain = env.torchLoadMain.toOption := rfl

theorem strategyResult_lb (env : DecodeEnv) :
    strategyResult env Strategy.librosaS = env.librosaRes.toOption := rfl

theorem strategyResult_sf (env : DecodeEnv) :
    strategyResult env Strategy.soundfileS = env.soundfileRes.toOption := rfl

theorem strategyResult_pc (env : DecodeEnv) :
    strategyResult env Strategy.pydubConv =
      (match env.convFromFileRes with
       | Except.error _ => none
       | Except.ok _ =>
          if env.pydubExportOk then env.torchLoadPydubWav.toOption else none) := rfl

theorem ffmpegStage_fst (env : DecodeEnv) (path : String) (fs : FS) (t : List Strategy) :
    (loadFfmpegStage env path fs t).1 =
      (match strategyResult env Strategy.ffmpegConv with
       | some a => Except.ok a
       | none => Except.error (allMethodsMsg path)) := by
  unfold loadFfmpegStage convert_with_ffmpeg strategyResult
  cases hfr : env.ffmpegRun 30 with
  | timeout => simp
  | notFound => simp
  | completed rc serr =>
    by_cases hrc : rc = 0
    · subst hrc
      cases hfw : env.torchLoadFfmpegWav <;> simp [Except.toOption]
    · simp [hrc]

theorem ffmpegStage_trace (env : DecodeEnv) (path : String) (fs : FS) (t : List Strategy) :
    (loadFfmpegStage env path fs t).2.2 = t ++ [Strategy.ffmpegConv] := by
  unfold loadFfmpegStage convert_with_ffmpeg
  cases hfr : env.ffmpegRun 30 with
  | timeout => simp
  | notFound => simp
  | completed rc serr =>
    by_cases hrc : rc = 0
    · subst hrc
      cases hfw : env.torchLoadFfmpegWav <;> simp
    · simp [hrc]

theorem load_audio_spec (env : DecodeEnv) (path : String) (fs : FS) :
    (load_audio env path fs).1 =
      (match firstSuccess env (strategyOrder path) with
       | some a => Except.ok a
       | none => Except.error (allMethodsMsg path)) ∧
    (load_audio env path fs).2.2 = attemptedList env (strategyOrder path) := by
  cases hu : ([".m4a", ".mp4", ".aac"].contains (extOf path)) with
  | true =>
    have hu2 : extOf path = ".m4a" ∨ extOf path = ".mp4" ∨ extOf path = ".aac" := by
      simpa using hu
    cases hpd : load_with_pydub env with
    | ok a =>
      simp [load_audio, strategyOrder, hu, hu2, hpd, firstSuccess, attemptedList,
        strategyResult_pd, Except.toOption]
    | error e0 =>
      cases htm : env.torchLoadMain with
      | ok a =>
        simp [load_audio, strategyOrder, hu, hu2, hpd, htm, firstSuccess, attemptedList,
          strategyResult_pd, strategyResult_tm, Except.toOption]
      | error e1 =>
        cases hlb : env.librosaRes with
        | ok a =>
          simp [load_audio, strategyOrder, hu, hu2, hpd, htm, hlb, firstSuccess, attemptedList,
            strategyResult_pd, strategyResult_tm, strategyResult_lb, Except.toOption]
        | error e2 =>
          cases hsf : env.soundfileRes with
          | ok a =>
            simp [load_audio, strategyOrder, hu, hu2, hpd, htm, hlb, hsf, firstSuccess,
              attemptedList, strategyResult_pd, strategyResult_tm, strategyResult_lb,
              strategyResult_sf, Except.toOption]
          | error e3 =>
            cases hcf : env.convFromFileRes with
            | ok seg =>
              cases hex : env.pydubExportOk with
              | true =>
                cases hwv : env.torchLoadPydubWav with
                | ok a =>
                  simp [load_audio, strategyOrder, hu, hu2, hpd, htm, hlb, hsf, hcf, hex, hwv,
                    convert_to_wav_with_pydub, firstSuccess, attemptedList,
                    strategyResult_pd, strategyResult_tm, strategyResult_lb,
                    strategyResult_sf, strategyResult_pc, Except.toOption]
                | error e4 =>
                  cases hfr : strategyResult env Strategy.ffmpegConv <;>
                    simp [load_audio, strategyOrder, hu, hu2, hpd, htm, hlb, hsf, hcf, hex, hwv,
                      convert_to_wav_with_pydub, ffmpegStage_fst, ffmpegStage_trace,
                      firstSuccess, attemptedList, strategyResult_pd, strategyResult_tm,
                      strategyResult_lb, strategyResult_sf, strategyResult_pc,
                      Except.toOption, hfr]
              | false =>
                cases hfr : strategyResult env Strategy.ffmpegConv <;>
                  simp [load_audio, strategyOrder, hu, hu2, hpd, htm, hlb, hsf, hcf, hex,
                    convert_to_wav_with_pydub, ffmpegStage_fst, ffmpegStage_trace,
                    firstSuccess, attemptedList, strategyResult_pd, strategyResult_tm,
                    strategyResult_lb, strategyResult_sf, strategyResult_pc,
                    Except.toOption, hfr]
            | error e5 =>
              cases hfr : strategyResult env Strategy.ffmpegConv <;>
                simp [load_audio, strategyOrder, hu, hu2, hpd, htm, hlb, hsf, hcf,
                  convert_to_wav_with_pydub, ffmpegStage_fst, ffmpegStage_trace,
                  firstSuccess, attemptedList, strategyResult_pd, strategyResult_tm,
                  strategyResult_lb, strategyResult_sf, strategyResult_pc,
                  Except.toOption, hfr]
  | false =>
    have hu2 : ¬ (extOf path = ".m4a" ∨ extOf path = ".mp4" ∨ extOf path = ".aac") := by
      simpa using hu
    cases htm : env.torchLoadMain with
    | ok a =>
      simp [load_audio, strategyOrder, hu, hu2, htm, firstSuccess, attemptedList,
        strategyResult_tm, Except.toOption]
    | error e1 =>
      cases hlb : env.librosaRes with
      | ok a =>
        simp [load_audio, strategyOrder, hu, hu2, htm, hlb, firstSuccess, attemptedList,
          strategyResult_tm, strategyResult_lb, Except.toOption]
      | error e2 =>
        cases hsf : env.soundfileRes with
        | ok a =>
          simp [load_audio, strategyOrder, hu, hu2, htm, hlb, hsf, firstSuccess, attemptedList,
            strategyResult_tm, strategyResult_lb, strategyResult_sf, Except.toOption]
        | error e3 =>
          cases hcf : env.convFromFileRes with
          | ok seg =>
            cases hex : env.pydubExportOk with
            | true =>
              cases hwv : env.torchLoadPydubWav with
              | ok a =>
                simp [load_audio, strategyOrder, hu, hu2, htm, hlb, hsf, hcf, hex, hwv,
                  convert_to_wav_with_pydub, firstSuccess, attemptedList,
                  strategyResult_tm, strategyResult_lb, strategyResult_sf,
                  strategyResult_pc, Except.toOption]
              | error e4 =>
                cases hfr : strategyResult env Strategy.ffmpegConv <;>
                  simp [load_audio, strategyOrder, hu, hu2, htm, hlb, hsf, hcf, hex, hwv,
                    convert_to_wav_with_pydub, ffmpegStage_fst, ffmpegStage_trace,
                    firstSuccess, attemptedList, strategyResult_tm, strategyResult_lb,
                    strategyResult_sf, strategyResult_pc, Except.toOption, hfr]
            | false =>
              cases hfr : strategyResult env Strategy.ffmpegConv <;>
                simp [load_audio, strategyOrder, hu, hu2, htm, hlb, hsf, hcf, hex,
                  convert_to_wav_with_pydub, ffmpegStage_fst, ffmpegStage_trace,
                  firstSuccess, attemptedList, strategyResult_tm, strategyResult_lb,
                  strategyResult_sf, strategyResult_pc, Except.toOption, hfr]
          | error e5 =>
            cases hfr : strategyResult env Strategy.ffmpegConv <;>
              simp [load_audio, strategyOrder, hu, hu2, htm, hlb, hsf, hcf,
                convert_to_wav_with_pydub, ffmpegStage_fst, ffmpegStage_trace,
                firstSuccess, attemptedList, strategyResult_tm, strategyResult_lb,
                strategyResult_sf, strategyResult_pc, Except.toOption, hfr]

/-- C1: `load_audio` tries the decode strategies in the fixed priority order
— pydub first exactly when the lowercased file extension is .m4a, .mp4 or
.aac, then torchaudio, librosa, soundfile, pydub-conversion-to-WAV, and
ffmpeg — attempting each later strategy only when every earlier applicable
one failed, returning the first success; when all fail it raises an error
whose message carries the file path and states that all methods were
tried. -/
theorem c1_decode_fallback_chain (env : DecodeEnv) (path : String) (fs : FS) :
    (load_audio env path fs).2.2 = attemptedList env (strategyOrder path) ∧
    (∀ a, (load_audio env path fs).1 = Except.ok a ↔
      firstSuccess env (strategyOrder path) = some a) ∧
    (firstSuccess env (strategyOrder path) = none →
      (load_audio env path fs).1 =
        Except.error
          ("Failed to load audio file " ++ path ++ ". Tried all available methods.")) := by
  obtain ⟨h1, h2⟩ := load_audio_spec env path fs
  refine ⟨h2, ?_, ?_⟩
  · intro a
    rw [h1]
    cases hfs : firstSuccess env (strategyOrder path) with
    | some b =>
      constructor
      · intro h
        injection h with h
        rw [h]
      · intro h
        injection h with h
        rw [h]
    | none =>
      constructor
      · intro h
        exact absurd h (by simp)
      · intro h
        exact absurd h (by simp)
  · intro hnone
    rw [h1, hnone]
    rfl

/-- C1 witness: on a path whose lowercased extension is .m4a with the pydub
decode failing and torchaudio succeeding, the chain attempts pydub then
torchaudio and returns torchaudio's audio; in the all-fail environment the
aggregate error carries the path. -/
theorem c1_decode_fallback_chain_witness :
    ((load_audio { envAllFail with torchLoadMain := Except.ok ([[1]], 8000) }
        "rec.M4A" []).1 = Except.ok ([[1]], 8000) ↔
      firstSuccess { envAllFail with torchLoadMain := Except.ok ([[1]], 8000) }
        (strategyOrder "rec.M4A") = some ([[1]], 8000)) ∧
    (load_audio { envAllFail with torchLoadMain := Except.ok ([[1]], 8000) }
        "rec.M4A" []).2.2 = [Strategy.pydubDirect, Strategy.torchMain] ∧
    (load_audio envAllFail "rec.M4A" []).1 =
      Except.error
        ("Failed to load audio file " ++ "rec.M4A" ++ ". Tried all available methods.") :=
  ⟨(c1_decode_fallback_chain { envAllFail with torchLoadMain := Except.ok ([[1]], 8000) }
      "rec.M4A" []).2.1 ([[1]], 8000),
   by
    rw [(c1_decode_fallback_chain { envAllFail with torchLoadMain := Except.ok ([[1]], 8000) }
      "rec.M4A" []).1]
    rfl,
   (c1_decode_fallback_chain envAllFail "rec.M4A" []).2.2 rfl⟩

theorem removePath_not_mem_eq (fs : FS) (p : String) (h : p ∉ fs) :
    removePath fs p = fs := by
  unfold removePath
  apply List.filter_eq_self.mpr
  intro a ha
  simp only [decide_eq_true_eq]
  intro hap
  exact h (hap ▸ ha)

theorem unlink_cons_self (fs : FS) (p : String) (h : p ∉ fs) :
    unlinkIfExists (p :: fs) p = fs := by
  have h1 : p ∈ p :: fs := List.mem_cons_self p fs
  rw [unlinkIfExists, if_pos h1, removePath, List.filter_cons]
  have h2 : (decide (¬ p = p)) = false := by simp
  rw [h2]
  simp only [Bool.false_eq_true, if_false]
  exact removePath_not_mem_eq fs p h

theorem ffmpegStage_fs (env : DecodeEnv) (path : String) (fs : FS) (t : List Strategy) :
    (loadFfmpegStage env path fs t).2.1 =
      (match env.ffmpegRun 30 with
       | FfmpegOutcome.completed rc _ =>
          if rc = 0 then unlinkIfExists (env.ffmpegTmpPath :: fs) env.ffmpegTmpPath
          else env.ffmpegTmpPath :: fs
       | FfmpegOutcome.timeout => env.ffmpegTmpPath :: fs
       | FfmpegOutcome.notFound => env.ffmpegTmpPath :: fs) := by
  unfold loadFfmpegStage convert_with_ffmpeg
  cases hfr : env.ffmpegRun 30 with
  | timeout => simp
  | notFound => simp
  | completed rc serr =>
    by_cases hrc : rc = 0
    · subst hrc
      cases hfw : env.torchLoadFfmpegWav <;> simp
    · simp [hrc]

/-- C4 is false as stated: in the environment where every strategy fails
(pydub conversion raising after its temporary file was created, ffmpeg
timing out after its temporary file was created), both intermediate WAV
files remain on the filesystem after `load_audio` raises. -/
theorem c4_counterexample_intermediate_leak :
    (load_audio envAllFail "f.mp3" []).2.1 = ["/tmp/f.wav", "/tmp/p.wav"] ∧
    "/tmp/p.wav" ∈ (load_audio envAllFail "f.mp3" []).2.1 ∧
    (load_audio envAllFail "f.mp3" []).1 =
      Except.error
        ("Failed to load audio file " ++ "f.mp3" ++ ". Tried all available methods.") := by
  have h : (load_audio envAllFail "f.mp3" []).2.1 = ["/tmp/f.wav", "/tmp/p.wav"] := rfl
  exact ⟨h, by rw [h]; simp, rfl⟩

/-- C4 amended: the pydub-conversion and ffmpeg strategies remove their
intermediate WAV file on success and on decode-of-converted-file failure
(the paths where conversion itself succeeded); but when the conversion
fails — pydub raising, or ffmpeg timing out, missing, or exiting nonzero —
the temporary file created before converting is left on the filesystem. -/
theorem c4_amended_cleanup_after_successful_conversion (env : DecodeEnv)
    (path : String) (fs : FS)
    (hp : env.pydubTmpPath ∉ fs) (hf : env.ffmpegTmpPath ∉ fs)
    (hne : env.pydubTmpPath ≠ env.ffmpegTmpPath) :
    ((∃ s, env.convFromFileRes = Except.ok s) → env.pydubExportOk = true →
      env.pydubTmpPath ∉ (load_audio env path fs).2.1) ∧
    (∀ serr, env.ffmpegRun 30 = FfmpegOutcome.completed 0 serr →
      env.ffmpegTmpPath ∉ (load_audio env path fs).2.1) := by
  have ep : unlinkIfExists (env.pydubTmpPath :: fs) env.pydubTmpPath = fs :=
    unlink_cons_self fs _ hp
  have ef : unlinkIfExists (env.ffmpegTmpPath :: fs) env.ffmpegTmpPath = fs :=
    unlink_cons_self fs _ hf
  have efp : unlinkIfExists (env.ffmpegTmpPath :: env.pydubTmpPath :: fs)
      env.ffmpegTmpPath = env.pydubTmpPath :: fs := by
    apply unlink_cons_self
    intro hmem
    rcases List.mem_cons.mp hmem with h | h
    · exact hne h.symm
    · exact hf h
  constructor
  · rintro ⟨s, hcf⟩ hex
    cases hu : ([".m4a", ".mp4", ".aac"].contains (extOf path)) with
    | true =>
      have hu2 : extOf path = ".m4a" ∨ extOf path = ".mp4" ∨ extOf path = ".aac" := by
        simpa using hu
      cases hpd : load_with_pydub env with
      | ok a => simp [load_audio, hu2, hpd, Except.toOption, hp]
      | error e0 =>
        cases htm : env.torchLoadMain with
        | ok a => simp [load_audio, hu2, hpd, htm, Except.toOption, hp]
        | error e1 =>
          cases hlb : env.librosaRes with
          | ok a => simp [load_audio, hu2, hpd, htm, hlb, Except.toOption, hp]
          | error e2 =>
            cases hsf : env.soundfileRes with
            | ok a => simp [load_audio, hu2, hpd, htm, hlb, hsf, Except.toOption, hp]
            | error e3 =>
              cases hwv : env.torchLoadPydubWav with
              | ok a =>
                simp [load_audio, hu2, hpd, htm, hlb, hsf, hcf, hex, hwv,
                  convert_to_wav_with_pydub, Except.toOption, ep, hp]
              | error e4 =>
                cases hfr : env.ffmpegRun 30 with
                | timeout =>
                  simp [load_audio, hu2, hpd, htm, hlb, hsf, hcf, hex, hwv,
                    convert_to_wav_with_pydub, Except.toOption, ep, ffmpegStage_fs,
                    hfr, hne, hp]
                | notFound =>
                  simp [load_audio, hu2, hpd, htm, hlb, hsf, hcf, hex, hwv,
                    convert_to_wav_with_pydub, Except.toOption, ep, ffmpegStage_fs,
                    hfr, hne, hp]
                | completed rc serr =>
                  by_cases hrc : rc = 0
                  · simp [load_audio, hu2, hpd, htm, hlb, hsf, hcf, hex, hwv,
                      convert_to_wav_with_pydub, Except.toOption, ep, ffmpegStage_fs,
                      hfr, hrc, ef, hp]
                  · simp [load_audio, hu2, hpd, htm, hlb, hsf, hcf, hex, hwv,
                      convert_to_wav_with_pydub, Except.toOption, ep, ffmpegStage_fs,
                      hfr, hrc, hne, hp]
    | false =>
      have hu2 : ¬ (extOf path = ".m4a" ∨ extOf path = ".mp4" ∨ extOf path = ".aac") := by
        simpa using hu
      cases htm : env.torchLoadMain with
      | ok a => simp [load_audio, hu, hu2, htm, Except.toOption, hp]
      | error e1 =>
        cases hlb : env.librosaRes with
        | ok a => simp [load_audio, hu, hu2, htm, hlb, Except.toOption, hp]
        | error e2 =>
          cases hsf : env.soundfileRes with
          | ok a => simp [load_audio, hu, hu2, htm, hlb, hsf, Except.toOption, hp]
          | error e3 =>
            cases hwv : env.torchLoadPydubWav with
            | ok a =>
              simp [load_audio, hu, hu2, htm, hlb, hsf, hcf, hex, hwv,
                convert_to_wav_with_pydub, Except.toOption, ep, hp]
            | error e4 =>
              cases hfr : env.ffmpegRun 30 with
              | timeout => simp [load_audio, hu, hu2, htm, hlb, hsf, hcf, hex, hwv,
                  convert_to_wav_with_pydub, ep, ffmpegStage_fs, hfr, hne, hp]
              | notFound => simp [load_audio, hu, hu2, htm, hlb, hsf, hcf, hex, hwv,
                  convert_to_wav_with_pydub, ep, ffmpegStage_fs, hfr, hne, hp]
              | completed rc serr =>
                by_cases hrc : rc = 0
                · simp [load_audio, hu, hu2, htm, hlb, hsf, hcf, hex, hwv,
                    convert_to_wav_with_pydub, ep, ffmpegStage_fs, hfr, hrc, ef, hp]
                · simp [load_audio, hu, hu2, htm, hlb, hsf, hcf, hex, hwv,
                    convert_to_wav_with_pydub, ep, ffmpegStage_fs, hfr, hrc, hne, hp]
  · intro serr hfr
    cases hu : ([".m4a", ".mp4", ".aac"].contains (extOf path)) with
    | true =>
      have hu2 : extOf path = ".m4a" ∨ extOf path = ".mp4" ∨ extOf path = ".aac" := by
        simpa using hu
      cases hpd : load_with_pydub env with
      | ok a => simp [load_audio, hu2, hpd, Except.toOption, hf]
      | error e0 =>
        cases htm : env.torchLoadMain with
        | ok a => simp [load_audio, hu2, hpd, htm, Except.toOption, hf]
        | error e1 =>
          cases hlb : env.librosaRes with
          | ok a => simp [load_audio, hu2, hpd, htm, hlb, Except.toOption, hf]
          | error e2 =>
            cases hsf : env.soundfileRes with
            | ok a => simp [load_audio, hu2, hpd, htm, hlb, hsf, Except.toOption, hf]
            | error e3 =>
              cases hcf : env.convFromFileRes with
              | ok seg =>
                cases hex : env.pydubExportOk with
                | true =>
                  cases hwv : env.torchLoadPydubWav with
                  | ok a =>
                    simp [load_audio, hu2, hpd, htm, hlb, hsf, hcf, hex, hwv,
                      convert_to_wav_with_pydub, Except.toOption, ep, hf]
                  | error e4 =>
                    simp [load_audio, hu2, hpd, htm, hlb, hsf, hcf, hex, hwv,
                      convert_to_wav_with_pydub, Except.toOption, ep, ffmpegStage_fs,
                      hfr, ef, hf]
                | false =>
                  simp [load_audio, hu2, hpd, htm, hlb, hsf, hcf, hex,
                    convert_to_wav_with_pydub, Except.toOption, ffmpegStage_fs,
                    hfr, efp, hne.symm, hf]
              | error e5 =>
                simp [load_audio, hu2, hpd, htm, hlb, hsf, hcf,
                  convert_to_wav_with_pydub, Except.toOption, ffmpegStage_fs,
                  hfr, efp, hne.symm, hf]
    | false =>
      have hu2 : ¬ (extOf path = ".m4a" ∨ extOf path = ".mp4" ∨ extOf path = ".aac") := by
        simpa using hu
      cases htm : env.torchLoadMain with
      | ok a => simp [load_audio, hu, hu2, htm, Except.toOption, hf]
      | error e1 =>
        cases hlb : env.librosaRes with
        | ok a => simp [load_audio, hu, hu2, htm, hlb, Except.toOption, hf]
        | error e2 =>
          cases hsf : env.soundfileRes with
          | ok a => simp [load_audio, hu, hu2, htm, hlb, hsf, Except.toOption, hf]
          | error e3 =>
            cases hcf : env.convFromFileRes with
            | ok seg =>
              cases hex : env.pydubExportOk with
              | true =>
                cases hwv : env.torchLoadPydubWav with
                | ok a =>
                  simp [load_audio, hu, hu2, htm, hlb, hsf, hcf, hex, hwv,
                    convert_to_wav_with_pydub, Except.toOption, ep, hf]
                | error e4 =>
                  simp [load_audio, hu, hu2, htm, hlb, hsf, hcf, hex, hwv,
                    convert_to_wav_with_pydub, Except.toOption, ep, ffmpegStage_fs,
                    hfr, ef, hf]
              | false =>
                simp [load_audio, hu, hu2, htm, hlb, hsf, hcf, hex,
                  convert_to_wav_with_pydub, Except.toOption, ffmpegStage_fs,
                  hfr, efp, hne.symm, hf]
            | error e5 =>
              simp [load_audio, hu, hu2, htm, hlb, hsf, hcf,
                convert_to_wav_with_pydub, Except.toOption, ffmpegStage_fs,
                hfr, efp, hne.symm, hf]

/-- C4 amended witness: with both conversions succeeding and the converted
files failing to decode, neither temporary WAV remains afterwards. -/
theorem c4_amended_cleanup_witness :
    "/tmp/p.wav" ∉ (load_audio envConvOk "f.mp3" []).2.1 ∧
    "/tmp/f.wav" ∉ (load_audio envConvOk "f.mp3" []).2.1 :=
  ⟨(c4_amended_cleanup_after_successful_conversion envConvOk "f.mp3" []
      (by simp) (by simp) (by simp [envConvOk, envAllFail])).1
      ⟨Segment.mk 1 8000 2 [], rfl⟩ rfl,
   (c4_amended_cleanup_after_successful_conversion envConvOk "f.mp3" []
      (by simp) (by simp) (by simp [envConvOk, envAllFail])).2 "" rfl⟩

/-- C9: `load_model` is idempotent — once a call has completed successfully
(`is_loaded` true) every subsequent call, under any oracle, returns
immediately with the manager state unchanged and performs no load, so any
sequence of successful calls equals a single call; and `transcribe` before a
successful load fails fast with the distinct not-ready `ValueError` instead
of attempting a lazy load. -/
theorem c9_load_once_idempotent (env env2 : LoadEnv) (ienv : InferEnv) (s : MMState) :
    (s.is_loaded = true → load_model env s = (s, Except.ok (), false)) ∧
    (∀ s1 b, load_model env s = (s1, Except.ok (), b) →
      load_model env2 s1 = (s1, Except.ok (), false)) ∧
    (s.is_loaded = false →
      transcribe ienv s = Except.error (PyErr.valueError notLoadedMsg)) := by
  refine ⟨?_, ?_, ?_⟩
  · intro h
    simp [load_model, h]
  · intro s1 b h
    have hs1 : s1.is_loaded = true := by
      unfold load_model at h
      by_cases hl : s.is_loaded = true
      · rw [if_pos hl] at h
        have hss : s = s1 := congrArg Prod.fst h
        rw [← hss]
        exact hl
      · rw [if_neg hl] at h
        cases hp : env.processorRes with
        | error e =>
          rw [hp] at h
          simp at h
        | ok p =>
          rw [hp] at h
          cases hm : env.modelRes with
          | error e =>
            rw [hm] at h
            simp at h
          | ok m =>
            rw [hm] at h
            have h1 : ({ s with
                processor := some p
                model := some m
                is_loaded := true } : MMState) = s1 := by
              have h2 := congrArg Prod.fst h
              simpa using h2
            rw [← h1]
    simp [load_model, hs1]
  · intro h
    simp [transcribe, h]

/-- C9 witness: a loaded manager is untouched by a repeated call; a fresh
manager loaded once is untouched by a second call; a fresh manager rejects
`transcribe` with the not-ready error. -/
theorem c9_load_once_idempotent_witness :
    load_model loadEnvOk mmLoaded = (mmLoaded, Except.ok (), false) ∧
    load_model loadEnvOk
        { mmFresh with processor := some 0, model := some 0, is_loaded := true } =
      ({ mmFresh with processor := some 0, model := some 0, is_loaded := true },
        Except.ok (), false) ∧
    transcribe inferEnvOk mmFresh = Except.error (PyErr.valueError notLoadedMsg) :=
  ⟨(c9_load_once_idempotent loadEnvOk loadEnvOk inferEnvOk mmLoaded).1 rfl,
   (c9_load_once_idempotent loadEnvOk loadEnvOk inferEnvOk mmFresh).2.1
     { mmFresh with processor := some 0, model := some 0, is_loaded := true } true rfl,
   (c9_load_once_idempotent loadEnvOk loadEnvOk inferEnvOk mmFresh).2.2 rfl⟩

/-- C3: for every request that stages a temporary file, cleanup of the
staged file is attempted on every code path (success and decode,
normalization or transcription failure alike); when the deletion succeeds
the staged file no longer exists afterwards; and a failing deletion is
swallowed — the handler's response does not depend on whether the unlink
succeeded. -/
theorem c3_staged_file_cleanup (env : ReqEnv) (fs : FS)
    (hstaged : env.stagedPath ∉ fs) :
    ((env.is_initialized = true ∨ env.initOk = true) → env.hasFile = true →
      env.filenameEmpty = false → env.stageOk = true →
      (transcribe_audio env fs).2.2 = true) ∧
    (env.unlinkOk = true → env.stagedPath ∉ (transcribe_audio env fs).2.1) ∧
    (∀ b, (transcribe_audio { env with unlinkOk := b } fs).1 =
      (transcribe_audio env fs).1) := by
  refine ⟨?_, ?_, ?_⟩
  · intro hinit hfile hname hstage
    have h1 : ¬ (env.is_initialized = false ∧ env.initOk = false) := by
      rcases hinit with h | h <;> simp [h]
    simp [transcribe_audio, h1, hfile, hname, hstage]
  · intro hunlink
    by_cases h1 : env.is_initialized = false ∧ env.initOk = false
    · simp [transcribe_audio, h1, hstaged]
    · by_cases h2 : env.hasFile = false
      · simp [transcribe_audio, h1, h2, hstaged]
      · by_cases h3 : env.filenameEmpty = true
        · simp [transcribe_audio, h1, h2, h3, hstaged]
        · by_cases h4 : env.stageOk = false
          · simp [transcribe_audio, h1, h2, h3, h4, hstaged]
          · simp [transcribe_audio, h1, h2, h3, h4, cleanup_temp_file, hunlink,
              removePath, List.mem_filter]
  · intro b
    by_cases h1 : env.is_initialized = false ∧ env.initOk = false
    · simp [transcribe_audio, h1]
    · by_cases h2 : env.hasFile = false
      · simp [transcribe_audio, h1, h2]
      · by_cases h3 : env.filenameEmpty = true
        · simp [transcribe_audio, h1, h2, h3]
        · by_cases h4 : env.stageOk = false
          · simp [transcribe_audio, h1, h2, h3, h4]
          · simp [transcribe_audio, h1, h2, h3, h4]

/-- C3 witness: in the all-success request environment the staged file
"/tmp/u.wav" is cleaned up, and the response is the same whether the unlink
succeeds or fails. -/
theorem c3_staged_file_cleanup_witness :
    (transcribe_audio reqEnvOk []).2.2 = true ∧
    "/tmp/u.wav" ∉ (transcribe_audio reqEnvOk []).2.1 ∧
    (transcribe_audio { reqEnvOk with unlinkOk := false } []).1 =
      (transcribe_audio reqEnvOk []).1 := by
  have h := c3_staged_file_cleanup reqEnvOk [] (by simp)
  exact ⟨h.1 (Or.inl rfl) rfl rfl rfl, h.2.1 rfl, h.2.2 false⟩
